import Mathlib

/-!
Verification of the outlier-aware Lion optimizer family in
`examples/common/optim/outlier_lion.py`.

Tensors are embedded as `List ℝ` (one real per element; float rounding is
abstracted to exact real arithmetic).  In-place torch operations become pure
functions returning the new tensor values, and each optimizer's `step` body
for a single parameter becomes a function from (parameter, gradient, group
hyperparameters, per-parameter state) to the updated parameter and state.
The distributed collective layer is external to the core (spec §1); the
embedding models the single-worker case (`dist.get_world_size() == 1`), where
every `all_reduce` branch is skipped by the source's own `> 1` guard.
-/

noncomputable section

/-- Elementwise `torch.lerp(input, end, weight) = input + weight * (end - input)`. -/
def lerpList (a b : List ℝ) (w : ℝ) : List ℝ :=
  List.zipWith (fun x y => x + w * (y - x)) a b

/-- Sum of squares of the entries, i.e. `torch.linalg.vector_norm(v) ** 2`. -/
def sumSq (v : List ℝ) : ℝ :=
  (v.map (fun x => x ^ 2)).sum

/-- L2 norm, `torch.linalg.vector_norm(v)`. -/
def l2Norm (v : List ℝ) : ℝ :=
  Real.sqrt (sumSq v)

/-- Elementwise `torch.sign`: negative ↦ -1, zero ↦ 0, positive ↦ +1. -/
def signR (x : ℝ) : ℝ :=
  if x < 0 then -1 else if x = 0 then 0 else 1

/-- Modelled from the spec: the class `OutlierDetector` is defined in
`examples/common/optim/outlier_detection.py`, which is not under `src/`
(only its import and call sites are).  Per spec §3/§4.1 its state is a fixed
`threshold` plus fast and slow exponential moving references, both updated
only on non-anomalous observations; the cold-start observation seeds both
references and is never flagged.  The smoothing constants are left open by
the spec (§9), so they are carried as fields fixed at construction. -/
structure OutlierDetector where
  threshold : ℝ
  fast_mva : Option ℝ
  slow_mva : Option ℝ
  fast_decay : ℝ
  slow_decay : ℝ

/-- Modelled from the spec (§4.1): compare the observation against the slow
reference scaled by `threshold`; if it exceeds that bound return `true` and
leave both references unmodified, otherwise update both references toward the
observation by exponential smoothing and return `false`.  The first
observation seeds both references and returns `false`. -/
def OutlierDetector.insert_observation (d : OutlierDetector) (x : ℝ) :
    Bool × OutlierDetector :=
  match d.slow_mva with
  | none => (false, { d with fast_mva := some x, slow_mva := some x })
  | some s =>
      if x > d.threshold * s then
        (true, d)
      else
        (false, { d with
          fast_mva := some ((1 - d.fast_decay) * d.fast_mva.getD x + d.fast_decay * x),
          slow_mva := some ((1 - d.slow_decay) * s + d.slow_decay * x) })

/-- Modelled from the spec (§4.1): return the current slow reference. -/
def OutlierDetector.get_slow_mva (d : OutlierDetector) : ℝ :=
  d.slow_mva.getD 0

/-- The shared update rule `lionw(p, grad, exp_avg, lr, initial_lr, wd, beta1,
beta2)`, an identical `@staticmethod` of all five classes (`SkipLion`,
`AdaBetaLion`, `AdaLRLion`, `ClipLion`, `FullyAdaptiveLion`): optional
decoupled weight decay, sign-of-interpolation step scaled by `-lr`, then the
momentum replaced by `lerp(exp_avg, grad, 1 - beta2)`.  Returns the new
parameter and the new momentum. -/
def lionw (p grad exp_avg : List ℝ) (lr initial_lr wd beta1 beta2 : ℝ) :
    List ℝ × List ℝ :=
  -- stepweight decay: `p.data.mul_(1 - decay_factor * wd)` when `wd != 0`,
  -- with `decay_factor = (lr / initial_lr) if initial_lr else 1.0`
  let p1 :=
    if wd ≠ 0 then
      let decay_factor := if initial_lr ≠ 0 then lr / initial_lr else 1
      p.map (fun x => x * (1 - decay_factor * wd))
    else p
  -- `update = exp_avg.lerp(grad, 1 - beta1).sign_()`; `p.add_(update, alpha=-lr)`
  let update := (lerpList exp_avg grad (1 - beta1)).map signR
  let p2 := List.zipWith (fun x u => x + (-lr) * u) p1 update
  -- `exp_avg.lerp_(grad, 1 - beta2)`
  (p2, lerpList exp_avg grad (1 - beta2))

/-- Pointwise congruence for `zipWith`. -/
theorem zipWith_ext {α β γ : Type} (f g : α → β → γ) (l₁ : List α) (l₂ : List β)
    (h : ∀ a b, f a b = g a b) : List.zipWith f l₁ l₂ = List.zipWith g l₁ l₂ := by
  induction l₁ generalizing l₂ with
  | nil => simp
  | cons a t ih =>
      cases l₂ with
      | nil => simp
      | cons b t₂ => simp [h, ih]

/-- C1: the shared update rule `lionw` first scales the parameter by
`1 - wd * (lr / initial_lr)` when `wd ≠ 0` (scale `1 - wd * 1` when
`initial_lr` is zero), leaves it unscaled when `wd = 0`, then decrements it
elementwise by `lr * sign(lerp(exp_avg, grad, 1 - beta1))` with sign mapping
negative ↦ -1, zero ↦ 0, positive ↦ +1, and replaces the momentum by
`lerp(exp_avg, grad, 1 - beta2)`. -/
theorem lionw_update_rule (p grad exp_avg : List ℝ) (lr initial_lr wd beta1 beta2 : ℝ) :
    (lionw p grad exp_avg lr initial_lr wd beta1 beta2).1 =
      List.zipWith
        (fun x u =>
          (if wd ≠ 0 then (1 - wd * (if initial_lr ≠ 0 then lr / initial_lr else 1)) * x else x)
            - lr * u)
        p
        ((List.zipWith (fun a g => a + (1 - beta1) * (g - a)) exp_avg grad).map
          (fun y => if y < 0 then (-1 : ℝ) else if y = 0 then 0 else 1)) ∧
    (lionw p grad exp_avg lr initial_lr wd beta1 beta2).2 =
      List.zipWith (fun a g => a + (1 - beta2) * (g - a)) exp_avg grad := by
  constructor
  · show (lionw p grad exp_avg lr initial_lr wd beta1 beta2).1 = _
    by_cases hwd : wd = 0
    · simp only [lionw, hwd, ne_eq, not_true_eq_false, if_false, lerpList, signR]
      exact zipWith_ext _ _ _ _ (fun x u => by ring)
    · simp only [lionw, hwd, ne_eq, not_false_eq_true, if_true, lerpList, signR,
        List.zipWith_map_left]
      exact zipWith_ext _ _ _ _ (fun x u => by ring)
  · rfl

/-- Per-parameter optimizer state of `SkipLion` as initialized in
`SkipLion.step`: the momentum `exp_avg`, the per-parameter
`OutlierDetector` `moment_tracker`, and the `skipped_batches` counter. -/
structure SkipLionState where
  exp_avg : List ℝ
  moment_tracker : OutlierDetector
  skipped_batches : ℝ

/-- The body of `SkipLion.step` for one parameter `p` with gradient `grad`
(single-worker embedding: the `dist.get_world_size() > 1` all-reduce branch
is skipped by the source's own guard).  The prospective moment norm is
squared, then square-rooted, and fed to the detector; a flagged observation
skips the update entirely and increments `skipped_batches`, otherwise
`lionw` is applied. -/
def SkipLion.stepParam (p grad : List ℝ) (lr initial_lr wd beta1 beta2 : ℝ)
    (st : SkipLionState) : List ℝ × SkipLionState :=
  let moment_norm := Real.sqrt ((l2Norm (lerpList st.exp_avg grad (1 - beta2))) ^ 2)
  let fr := st.moment_tracker.insert_observation moment_norm
  if fr.1 then
    -- skip completely
    (p, { st with moment_tracker := fr.2, skipped_batches := st.skipped_batches + 1 })
  else
    let res := lionw p grad st.exp_avg lr initial_lr wd beta1 beta2
    (res.1, { exp_avg := res.2, moment_tracker := fr.2,
              skipped_batches := st.skipped_batches })

/-- C2: on a `SkipLion` step, a flagged moment-norm observation leaves the
parameter and the momentum unchanged and increments `skipped_batches` by
exactly 1; a non-flagged observation leaves `skipped_batches` unchanged and
moves the parameter and momentum exactly as `lionw` prescribes with the
group's hyperparameters. -/
theorem skipLion_step_skip_policy (p grad : List ℝ) (lr initial_lr wd beta1 beta2 : ℝ)
    (st : SkipLionState) :
    (((st.moment_tracker.insert_observation
          (Real.sqrt ((l2Norm (lerpList st.exp_avg grad (1 - beta2))) ^ 2))).1 = true →
        (SkipLion.stepParam p grad lr initial_lr wd beta1 beta2 st).1 = p ∧
        (SkipLion.stepParam p grad lr initial_lr wd beta1 beta2 st).2.exp_avg = st.exp_avg ∧
        (SkipLion.stepParam p grad lr initial_lr wd beta1 beta2 st).2.skipped_batches =
          st.skipped_batches + 1) ∧
     ((st.moment_tracker.insert_observation
          (Real.sqrt ((l2Norm (lerpList st.exp_avg grad (1 - beta2))) ^ 2))).1 = false →
        (SkipLion.stepParam p grad lr initial_lr wd beta1 beta2 st).2.skipped_batches =
          st.skipped_batches ∧
        (SkipLion.stepParam p grad lr initial_lr wd beta1 beta2 st).1 =
          (lionw p grad st.exp_avg lr initial_lr wd beta1 beta2).1 ∧
        (SkipLion.stepParam p grad lr initial_lr wd beta1 beta2 st).2.exp_avg =
          (lionw p grad st.exp_avg lr initial_lr wd beta1 beta2).2)) := by
  constructor
  · intro h
    simp [SkipLion.stepParam, h]
  · intro h
    simp [SkipLion.stepParam, h]

/-- A detector state whose slow reference is already seeded at 1 with
threshold 10, used to exercise flagged steps at concrete inputs. -/
def seededTracker : OutlierDetector :=
  { threshold := 10, fast_mva := some 1, slow_mva := some 1,
    fast_decay := 1 / 2, slow_decay := 1 / 100 }

/-- A concrete `SkipLion` state: zero momentum, seeded detector, zero skips. -/
def skipSt0 : SkipLionState :=
  { exp_avg := [0], moment_tracker := seededTracker, skipped_batches := 0 }

/-- The moment-norm observation of `skipSt0` against gradient `[200]` at
`beta2 = 0` evaluates to 200. -/
theorem skipSt0_obs_eval :
    Real.sqrt ((l2Norm (lerpList skipSt0.exp_avg [200] (1 - 0))) ^ 2) = 200 := by
  have h1 : lerpList skipSt0.exp_avg [200] (1 - 0) = [200] := by
    simp [lerpList, skipSt0]
  rw [h1]
  have h2 : l2Norm [200] = 200 := by
    have : sumSq [200] = 200 ^ 2 := by norm_num [sumSq]
    rw [l2Norm, this, Real.sqrt_sq (by norm_num)]
  rw [h2, Real.sqrt_sq (by norm_num)]

/-- Witness for C2: with a seeded detector (slow reference 1, threshold 10)
and gradient `[200]`, the observation 200 is flagged, so the step leaves the
parameter `[1]` and momentum `[0]` unchanged and bumps the counter to 1. -/
theorem skipLion_step_skip_policy_witness :
    (SkipLion.stepParam [1] [200] 1 1 0 (1/2) 0 skipSt0).1 = [1] ∧
    (SkipLion.stepParam [1] [200] 1 1 0 (1/2) 0 skipSt0).2.exp_avg = [0] ∧
    (SkipLion.stepParam [1] [200] 1 1 0 (1/2) 0 skipSt0).2.skipped_batches = 0 + 1 := by
  have hflag : (skipSt0.moment_tracker.insert_observation
      (Real.sqrt ((l2Norm (lerpList skipSt0.exp_avg [200] (1 - 0))) ^ 2))).1 = true := by
    rw [skipSt0_obs_eval]
    simp only [skipSt0, seededTracker, OutlierDetector.insert_observation]
    rw [if_pos (by norm_num)]
  have h := (skipLion_step_skip_policy [1] [200] 1 1 0 (1/2) 0 skipSt0).1 hflag
  simpa [skipSt0] using h

/-- The timeout-eviction block shared verbatim by `AdaBetaLion.step`,
`AdaLRLion.step` and `FullyAdaptiveLion.step`: collect every timestamp
older than `timeout` relative to the current step into `removed`, then
delete each collected occurrence from the window (`list.remove` deletes the
first matching occurrence). -/
def evictStale (window : List ℕ) (step timeout : ℕ) : List ℕ :=
  let removed := window.filter (fun ts => decide (step - ts > timeout))
  removed.foldl (fun w ts => w.erase ts) window

/-- Erasing elements all different from the head commutes with `cons`. -/
theorem foldl_erase_cons {a : ℕ} (L w : List ℕ) (hL : ∀ ts ∈ L, ts ≠ a) :
    L.foldl (fun l ts => l.erase ts) (a :: w) =
      a :: L.foldl (fun l ts => l.erase ts) w := by
  induction L generalizing w with
  | nil => rfl
  | cons t ts ih =>
      have hta : t ≠ a := hL t (List.mem_cons_self t ts)
      have : (a :: w).erase t = a :: w.erase t := by
        rw [List.erase_cons_tail]
        simp [Ne.symm hta]
      simp only [List.foldl_cons, this]
      exact ih (w.erase t) (fun x hx => hL x (List.mem_cons_of_mem t hx))

/-- Removing, one by one, each occurrence collected by `filter q` is the same
as keeping the occurrences with `q` false. -/
theorem foldl_erase_filter (q : ℕ → Bool) (w : List ℕ) :
    (w.filter q).foldl (fun l ts => l.erase ts) w = w.filter (fun ts => !q ts) := by
  induction w with
  | nil => rfl
  | cons a t ih =>
      by_cases hq : q a = true
      · simp only [List.filter_cons, hq, if_true, List.foldl_cons,
          List.erase_cons_head, Bool.not_true]
        simpa [List.filter_cons, hq] using ih
      · have hq' : q a = false := by simpa using hq
        have hmem : ∀ ts ∈ t.filter q, ts ≠ a := by
          intro ts hts hcontra
          have := List.of_mem_filter hts
          rw [hcontra, hq'] at this
          exact Bool.false_ne_true this
        simp only [List.filter_cons, hq', Bool.false_eq_true, if_false,
          Bool.not_false, if_true]
        rw [foldl_erase_cons (t.filter q) t hmem, ih]

/-- Eviction keeps exactly the timestamps within the timeout. -/
theorem evictStale_eq_filter (window : List ℕ) (step timeout : ℕ) :
    evictStale window step timeout =
      window.filter (fun ts => decide (step - ts ≤ timeout)) := by
  unfold evictStale
  rw [foldl_erase_filter]
  congr 1
  funext ts
  simp only [← decide_not]
  exact decide_eq_decide.mpr (by omega)

/-- The full window update of one step of the three windowed variants: append
the current step index when the observation was flagged, then run the
timeout eviction block. -/
def nextWindow (window : List ℕ) (flagged : Bool) (step timeout : ℕ) : List ℕ :=
  evictStale (if flagged then window ++ [step] else window) step timeout

/-- `AdaBetaLion.adjust_betas(beta1, beta2, increase, num_times)`. -/
def AdaBetaLion.adjust_betas (beta1 beta2 : ℝ) (increase : Bool) (num_times : ℕ) :
    ℝ × ℝ :=
  let scale : ℝ := if increase then 0.5 else 1.5
  (1 - ((1 - beta1) * scale ^ num_times), 1 - ((1 - beta2) * scale ^ num_times))

/-- `AdaLRLion.adjust_lr(lr, lr_penalty, num_times, min_scale)`. -/
def AdaLRLion.adjust_lr (lr lr_penalty : ℝ) (num_times : ℕ) (min_scale : ℝ) : ℝ :=
  lr * max min_scale (lr_penalty ^ num_times)

/-- `FullyAdaptiveLion.adjust_param(lr, param_adjustment, num_times)`. -/
def FullyAdaptiveLion.adjust_param (lr param_adjustment : ℝ) (num_times : ℕ) : ℝ :=
  lr * param_adjustment ^ num_times

/-- Per-parameter state shared (with identical keys) by `AdaBetaLion.step`
and `AdaLRLion.step`: momentum, detector, outlier timestamp window, and the
per-parameter step counter. -/
structure WindowedLionState where
  exp_avg : List ℝ
  moment_tracker : OutlierDetector
  outlier_timestamp : List ℕ
  step : ℕ

/-- The body of `AdaBetaLion.step` for one parameter (single-worker
embedding): observe the prospective moment norm, append the step index to
the window when flagged, evict stale timestamps, adapt both betas by the
window length, and always apply `lionw`. -/
def AdaBetaLion.stepParam (increase : Bool) (timeout : ℕ) (p grad : List ℝ)
    (lr initial_lr wd beta1 beta2 : ℝ) (st : WindowedLionState) :
    List ℝ × WindowedLionState :=
  let moment_norm := Real.sqrt ((l2Norm (lerpList st.exp_avg grad (1 - beta2))) ^ 2)
  let fr := st.moment_tracker.insert_observation moment_norm
  let window := nextWindow st.outlier_timestamp fr.1 st.step timeout
  let bb := AdaBetaLion.adjust_betas beta1 beta2 increase window.length
  let res := lionw p grad st.exp_avg lr initial_lr wd bb.1 bb.2
  (res.1, { exp_avg := res.2, moment_tracker := fr.2,
            outlier_timestamp := window, step := st.step + 1 })

/-- The body of `AdaLRLion.step` for one parameter (single-worker embedding):
same window maintenance, then the learning rate is adapted by
`adjust_lr` and `lionw` is always applied. -/
def AdaLRLion.stepParam (timeout : ℕ) (lr_penalty min_scale : ℝ) (p grad : List ℝ)
    (lr initial_lr wd beta1 beta2 : ℝ) (st : WindowedLionState) :
    List ℝ × WindowedLionState :=
  let moment_norm := Real.sqrt ((l2Norm (lerpList st.exp_avg grad (1 - beta2))) ^ 2)
  let fr := st.moment_tracker.insert_observation moment_norm
  let window := nextWindow st.outlier_timestamp fr.1 st.step timeout
  let lr' := AdaLRLion.adjust_lr lr lr_penalty window.length min_scale
  let res := lionw p grad st.exp_avg lr' initial_lr wd beta1 beta2
  (res.1, { exp_avg := res.2, moment_tracker := fr.2,
            outlier_timestamp := window, step := st.step + 1 })

/-- Per-parameter state of `FullyAdaptiveLion.step`: the windowed state plus
the captured initial parameter norm (`param_init_norm[p]`, absent before the
first step) and the derived weight-decay scaling (`param_wd_scaling[p]`,
absent before the first step; `.get(p, 0.0)` reads it as 0). -/
structure FullyAdaptiveLionState where
  exp_avg : List ℝ
  moment_tracker : OutlierDetector
  outlier_timestamp : List ℕ
  step : ℕ
  init_norm : Option ℝ
  wd_scaling : Option ℝ

/-- The body of `FullyAdaptiveLion.step` for one parameter (single-worker
embedding).  On the first step the initial parameter norm is captured before
the update (squared, reduced, square-rooted).  The window is maintained as in
the other variants; `lr` and `beta1` are adapted by `adjust_param`, `beta2`
is computed by applying `adjust_param` to the already-adjusted `beta1`
(source line 918 passes `beta1`, not `beta2`), and the weight decay is the
adapted lr times the scaling derived at the end of the previous step.  After
the update, the new scaling `(‖p_t‖ - ‖p_0‖) / ‖p_0‖` is stored for the next
step. -/
def FullyAdaptiveLion.stepParam (timeout : ℕ) (param_adjustment : ℝ)
    (p grad : List ℝ) (lr initial_lr beta1 beta2 : ℝ)
    (st : FullyAdaptiveLionState) : List ℝ × FullyAdaptiveLionState :=
  let p0 :=
    match st.init_norm with
    | none => Real.sqrt ((l2Norm p) ^ 2)
    | some v => v
  let moment_norm := Real.sqrt ((l2Norm (lerpList st.exp_avg grad (1 - beta2))) ^ 2)
  let fr := st.moment_tracker.insert_observation moment_norm
  let window := nextWindow st.outlier_timestamp fr.1 st.step timeout
  let lr' := FullyAdaptiveLion.adjust_param lr param_adjustment window.length
  let beta1' := FullyAdaptiveLion.adjust_param beta1 param_adjustment window.length
  let beta2' := FullyAdaptiveLion.adjust_param beta1' param_adjustment window.length
  let wd := lr' * st.wd_scaling.getD 0
  let res := lionw p grad st.exp_avg lr' initial_lr wd beta1' beta2'
  let p_t := Real.sqrt ((l2Norm res.1) ^ 2)
  (res.1, { exp_avg := res.2, moment_tracker := fr.2, outlier_timestamp := window,
            step := st.step + 1, init_norm := some p0,
            wd_scaling := some ((p_t - p0) / p0) })

/-- C6: every `AdaBetaLion` step applies the update (never skips), with both
betas adapted to exactly `1 - (1 - beta) * scale ^ n` where `n` is the window
length after eviction and `scale` is `0.5` when constructed with
`increase = True` and `1.5` otherwise. -/
theorem adaBetaLion_adapted_betas (increase : Bool) (timeout : ℕ) (p grad : List ℝ)
    (lr initial_lr wd beta1 beta2 : ℝ) (st : WindowedLionState) :
    let flag := (st.moment_tracker.insert_observation
      (Real.sqrt ((l2Norm (lerpList st.exp_avg grad (1 - beta2))) ^ 2))).1
    let n := (nextWindow st.outlier_timestamp flag st.step timeout).length
    let scale : ℝ := if increase then 0.5 else 1.5
    (AdaBetaLion.stepParam increase timeout p grad lr initial_lr wd beta1 beta2 st).1 =
      (lionw p grad st.exp_avg lr initial_lr wd
        (1 - (1 - beta1) * scale ^ n) (1 - (1 - beta2) * scale ^ n)).1 ∧
    (AdaBetaLion.stepParam increase timeout p grad lr initial_lr wd beta1 beta2 st).2.exp_avg =
      (lionw p grad st.exp_avg lr initial_lr wd
        (1 - (1 - beta1) * scale ^ n) (1 - (1 - beta2) * scale ^ n)).2 ∧
    (AdaBetaLion.stepParam increase timeout p grad lr initial_lr wd beta1 beta2 st).2.step =
      st.step + 1 := by
  refine ⟨rfl, rfl, rfl⟩

/-- Norms are nonnegative. -/
theorem l2Norm_nonneg (v : List ℝ) : 0 ≤ l2Norm v :=
  Real.sqrt_nonneg _

/-- Squaring a norm and taking the square root gives the norm back (this is
the `norm ** 2` / `math.sqrt` round trip done before each detector
observation, with the cross-worker sum dropped at world size 1). -/
theorem sqrt_sq_l2Norm (v : List ℝ) : Real.sqrt ((l2Norm v) ^ 2) = l2Norm v :=
  Real.sqrt_sq (l2Norm_nonneg v)

/-- Scaling every entry scales the sum of squares by the square. -/
theorem sumSq_map_mul (v : List ℝ) (c : ℝ) :
    sumSq (v.map (fun x => x * c)) = c ^ 2 * sumSq v := by
  induction v with
  | nil => simp [sumSq]
  | cons a t ih =>
      have h1 : sumSq ((a :: t).map (fun x => x * c)) =
          (a * c) ^ 2 + sumSq (t.map (fun x => x * c)) := by
        simp [sumSq]
      have h2 : sumSq (a :: t) = a ^ 2 + sumSq t := by
        simp [sumSq]
      rw [h1, ih, h2]
      ring

/-- Scaling every entry scales the L2 norm by the absolute value. -/
theorem l2Norm_map_mul (v : List ℝ) (c : ℝ) :
    l2Norm (v.map (fun x => x * c)) = |c| * l2Norm v := by
  unfold l2Norm
  rw [sumSq_map_mul, Real.sqrt_mul (sq_nonneg c), Real.sqrt_sq_eq_abs]

/-- A flagged observation leaves the detector state unmodified (spec §4.1:
anomalous data must not contaminate the baseline). -/
theorem insert_flagged_keeps_detector (d : OutlierDetector) (x : ℝ)
    (h : (d.insert_observation x).1 = true) : (d.insert_observation x).2 = d := by
  unfold OutlierDetector.insert_observation at *
  cases hs : d.slow_mva with
  | none => simp [hs] at h
  | some s =>
      simp only [hs] at h ⊢
      by_cases hx : x > d.threshold * s
      · simp [hx]
      · simp [hx] at h

/-- C8: after the eviction phase of a step, every retained timestamp is
within `timeout` of the current step — stated directly for the shared window
update and for the post-step window of each of `AdaBetaLion`, `AdaLRLion`
and `FullyAdaptiveLion`; moreover on a non-flagged step the window length
never grows, and when every entry is already stale and no outlier is
flagged, the window becomes empty. -/
theorem outlier_window_invariant (window : List ℕ) (flagged : Bool) (step timeout : ℕ)
    (increase : Bool) (p grad : List ℝ)
    (lr initial_lr wd beta1 beta2 lr_penalty min_scale param_adjustment : ℝ)
    (st : WindowedLionState) (stF : FullyAdaptiveLionState) :
    (∀ ts ∈ nextWindow window flagged step timeout, step - ts ≤ timeout) ∧
    (∀ ts ∈ (AdaBetaLion.stepParam increase timeout p grad lr initial_lr wd beta1
        beta2 st).2.outlier_timestamp, st.step - ts ≤ timeout) ∧
    (∀ ts ∈ (AdaLRLion.stepParam timeout lr_penalty min_scale p grad lr initial_lr wd
        beta1 beta2 st).2.outlier_timestamp, st.step - ts ≤ timeout) ∧
    (∀ ts ∈ (FullyAdaptiveLion.stepParam timeout param_adjustment p grad lr initial_lr
        beta1 beta2 stF).2.outlier_timestamp, stF.step - ts ≤ timeout) ∧
    (flagged = false →
      (nextWindow window flagged step timeout).length ≤ window.length) ∧
    ((∀ ts ∈ window, step - ts > timeout) → flagged = false →
      nextWindow window flagged step timeout = []) := by
  have hcore : ∀ (w : List ℕ) (f : Bool) (s t : ℕ),
      ∀ ts ∈ nextWindow w f s t, s - ts ≤ t := by
    intro w f s t ts hts
    unfold nextWindow at hts
    rw [evictStale_eq_filter] at hts
    have := List.of_mem_filter hts
    exact of_decide_eq_true this
  refine ⟨hcore window flagged step timeout, ?_, ?_, ?_, ?_, ?_⟩
  · exact hcore _ _ _ _
  · exact hcore _ _ _ _
  · exact hcore _ _ _ _
  · intro hf
    subst hf
    unfold nextWindow
    rw [evictStale_eq_filter]
    exact List.length_filter_le _ _
  · intro hstale hf
    subst hf
    unfold nextWindow
    rw [evictStale_eq_filter]
    refine List.filter_eq_nil_iff.mpr ?_
    intro ts hts
    simp only [decide_eq_true_eq, not_le]
    exact hstale ts hts

/-- A concrete windowed state for instantiating the window theorems. -/
def winSt0 : WindowedLionState :=
  { exp_avg := [0], moment_tracker := seededTracker, outlier_timestamp := [], step := 0 }

/-- A concrete `FullyAdaptiveLion` state before its first step. -/
def faSt0 : FullyAdaptiveLionState :=
  { exp_avg := [0], moment_tracker := seededTracker, outlier_timestamp := [], step := 0,
    init_norm := none, wd_scaling := none }

/-- Witness for C8: at step 10 with timeout 3 and a stale window `[0]`, after
an unflagged step every retained entry is in range and the window is
emptied. -/
theorem outlier_window_invariant_witness :
    nextWindow [0] false 10 3 = [] ∧
    (nextWindow [0] false 10 3).length ≤ ([0] : List ℕ).length := by
  have h := outlier_window_invariant [0] false 10 3 true [0] [0]
    1 1 0 0 0 0 0 0 winSt0 faSt0
  exact ⟨h.2.2.2.2.2 (by decide) rfl, h.2.2.2.2.1 rfl⟩

/-- Per-parameter optimizer state of `ClipLion` as initialized in
`ClipLion.step`: momentum, the gradient-norm detector `grad_tracker`, and
the `clipped_batches` counter. -/
structure ClipLionState where
  exp_avg : List ℝ
  grad_tracker : OutlierDetector
  clipped_batches : ℝ

/-- The body of `ClipLion.step` for one parameter (single-worker embedding):
the raw gradient norm is observed; when flagged, the counter increments and
the gradient is rescaled (a fresh tensor: `grad.div(...)` is out-of-place)
to unit direction times `get_slow_mva() * outlier_threshold` before the
update, which is always applied. -/
def ClipLion.stepParam (outlier_threshold : ℝ) (p grad : List ℝ)
    (lr initial_lr wd beta1 beta2 : ℝ) (st : ClipLionState) :
    List ℝ × ClipLionState :=
  let grad_norm := Real.sqrt ((l2Norm grad) ^ 2)
  let fr := st.grad_tracker.insert_observation grad_norm
  if fr.1 then
    let clip_norm := fr.2.get_slow_mva * outlier_threshold
    let grad2 := (grad.map (fun x => x / grad_norm)).map (fun x => x * clip_norm)
    let res := lionw p grad2 st.exp_avg lr initial_lr wd beta1 beta2
    (res.1, { exp_avg := res.2, grad_tracker := fr.2,
              clipped_batches := st.clipped_batches + 1 })
  else
    let res := lionw p grad st.exp_avg lr initial_lr wd beta1 beta2
    (res.1, { exp_avg := res.2, grad_tracker := fr.2,
              clipped_batches := st.clipped_batches })

/-- C4: on a flagged `ClipLion` step, `clipped_batches` increments by exactly
1, the update is still applied via `lionw` on the gradient rescaled to
`(slow_mva * threshold / ‖grad‖) * grad` (direction preserved), and the
rescaled gradient's norm equals `slow_mva * threshold` exactly. -/
theorem clipLion_clip_policy (outlier_threshold : ℝ) (p grad : List ℝ)
    (lr initial_lr wd beta1 beta2 : ℝ) (st : ClipLionState)
    (hflag : (st.grad_tracker.insert_observation
      (Real.sqrt ((l2Norm grad) ^ 2))).1 = true)
    (hg : 0 < l2Norm grad)
    (hs : 0 ≤ st.grad_tracker.get_slow_mva)
    (ht : 0 ≤ outlier_threshold) :
    (ClipLion.stepParam outlier_threshold p grad lr initial_lr wd beta1 beta2
        st).2.clipped_batches = st.clipped_batches + 1 ∧
    (ClipLion.stepParam outlier_threshold p grad lr initial_lr wd beta1 beta2 st).1 =
      (lionw p
        (grad.map (fun x =>
          x * (st.grad_tracker.get_slow_mva * outlier_threshold / l2Norm grad)))
        st.exp_avg lr initial_lr wd beta1 beta2).1 ∧
    (ClipLion.stepParam outlier_threshold p grad lr initial_lr wd beta1 beta2
        st).2.exp_avg =
      (lionw p
        (grad.map (fun x =>
          x * (st.grad_tracker.get_slow_mva * outlier_threshold / l2Norm grad)))
        st.exp_avg lr initial_lr wd beta1 beta2).2 ∧
    l2Norm (grad.map (fun x =>
        x * (st.grad_tracker.get_slow_mva * outlier_threshold / l2Norm grad))) =
      st.grad_tracker.get_slow_mva * outlier_threshold := by
  have hkeep := insert_flagged_keeps_detector st.grad_tracker
    (Real.sqrt ((l2Norm grad) ^ 2)) hflag
  have hgrad2 :
      ((grad.map (fun x => x / Real.sqrt ((l2Norm grad) ^ 2))).map (fun x =>
          x * ((st.grad_tracker.insert_observation
            (Real.sqrt ((l2Norm grad) ^ 2))).2.get_slow_mva * outlier_threshold))) =
        grad.map (fun x =>
          x * (st.grad_tracker.get_slow_mva * outlier_threshold / l2Norm grad)) := by
    rw [hkeep, sqrt_sq_l2Norm, List.map_map]
    congr 1
    funext x
    simp only [Function.comp_apply]
    ring
  refine ⟨?_, ?_, ?_, ?_⟩
  · simp only [ClipLion.stepParam, hflag, if_true]
  · simp only [ClipLion.stepParam, hflag, if_true]
    rw [hgrad2]
  · simp only [ClipLion.stepParam, hflag, if_true]
    rw [hgrad2]
  · rw [l2Norm_map_mul,
      abs_of_nonneg (div_nonneg (mul_nonneg hs ht) (le_of_lt hg)),
      div_mul_cancel₀ _ (ne_of_gt hg)]

/-- A concrete `ClipLion` state with a seeded gradient tracker. -/
def clipSt0 : ClipLionState :=
  { exp_avg := [0], grad_tracker := seededTracker, clipped_batches := 0 }

/-- The norm of the one-element gradient `[300]` is 300. -/
theorem l2Norm_300 : l2Norm [300] = 300 := by
  have : sumSq [300] = 300 ^ 2 := by norm_num [sumSq]
  rw [l2Norm, this, Real.sqrt_sq (by norm_num)]

/-- Witness for C4: with a seeded tracker (slow reference 1) and threshold
10, gradient `[300]` is flagged; the counter reaches 1 and the rescaled
gradient has norm exactly `1 * 10`. -/
theorem clipLion_clip_policy_witness :
    (ClipLion.stepParam 10 [1] [300] 1 1 0 (1/2) (99/100) clipSt0).2.clipped_batches =
      0 + 1 ∧
    l2Norm ([300].map (fun x =>
        x * (clipSt0.grad_tracker.get_slow_mva * 10 / l2Norm [300]))) =
      clipSt0.grad_tracker.get_slow_mva * 10 := by
  have hflag : (clipSt0.grad_tracker.insert_observation
      (Real.sqrt ((l2Norm [300]) ^ 2))).1 = true := by
    rw [sqrt_sq_l2Norm, l2Norm_300]
    simp only [clipSt0, seededTracker, OutlierDetector.insert_observation]
    rw [if_pos (by norm_num)]
  have hs : (0:ℝ) ≤ clipSt0.grad_tracker.get_slow_mva := by
    norm_num [clipSt0, seededTracker, OutlierDetector.get_slow_mva]
  have h := clipLion_clip_policy 10 [1] [300] 1 1 0 (1/2) (99/100) clipSt0 hflag
    (by rw [l2Norm_300]; norm_num) hs (by norm_num)
  exact ⟨h.1, h.2.2.2⟩

/-- C5: a `FullyAdaptiveLion` step passes `lr * param_adjustment ^ n` and
`beta1 * param_adjustment ^ n` to the update, and its `beta2` argument is
obtained by adjusting the already-adjusted `beta1` — so it equals
`beta1 * param_adjustment ^ (2 * n)` — while the configured `beta2` can only
influence the applied update through the outlier observation: two configured
`beta2` values whose observations receive the same flag produce identical
parameter and momentum updates. -/
theorem fullyAdaptiveLion_adjusted_hyperparameters (timeout : ℕ)
    (param_adjustment : ℝ) (p grad : List ℝ) (lr initial_lr beta1 beta2 : ℝ)
    (st : FullyAdaptiveLionState) :
    let flag := (st.moment_tracker.insert_observation
      (Real.sqrt ((l2Norm (lerpList st.exp_avg grad (1 - beta2))) ^ 2))).1
    let n := (nextWindow st.outlier_timestamp flag st.step timeout).length
    ((FullyAdaptiveLion.stepParam timeout param_adjustment p grad lr initial_lr
        beta1 beta2 st).1 =
      (lionw p grad st.exp_avg (lr * param_adjustment ^ n) initial_lr
        (lr * param_adjustment ^ n * st.wd_scaling.getD 0)
        (beta1 * param_adjustment ^ n)
        (beta1 * param_adjustment ^ (2 * n))).1 ∧
     (FullyAdaptiveLion.stepParam timeout param_adjustment p grad lr initial_lr
        beta1 beta2 st).2.exp_avg =
      (lionw p grad st.exp_avg (lr * param_adjustment ^ n) initial_lr
        (lr * param_adjustment ^ n * st.wd_scaling.getD 0)
        (beta1 * param_adjustment ^ n)
        (beta1 * param_adjustment ^ (2 * n))).2) ∧
    (∀ b2' : ℝ,
      (st.moment_tracker.insert_observation
        (Real.sqrt ((l2Norm (lerpList st.exp_avg grad (1 - beta2))) ^ 2))).1 =
      (st.moment_tracker.insert_observation
        (Real.sqrt ((l2Norm (lerpList st.exp_avg grad (1 - b2'))) ^ 2))).1 →
      (FullyAdaptiveLion.stepParam timeout param_adjustment p grad lr initial_lr
          beta1 beta2 st).1 =
        (FullyAdaptiveLion.stepParam timeout param_adjustment p grad lr initial_lr
          beta1 b2' st).1 ∧
      (FullyAdaptiveLion.stepParam timeout param_adjustment p grad lr initial_lr
          beta1 beta2 st).2.exp_avg =
        (FullyAdaptiveLion.stepParam timeout param_adjustment p grad lr initial_lr
          beta1 b2' st).2.exp_avg) := by
  intro flag n
  have hpow : beta1 * param_adjustment ^ (2 * n) =
      beta1 * param_adjustment ^ n * param_adjustment ^ n := by
    rw [two_mul, pow_add]; ring
  constructor
  · rw [hpow]
    exact ⟨rfl, rfl⟩
  · intro b2' hEq
    simp only [FullyAdaptiveLion.stepParam]
    rw [← hEq]
    exact ⟨rfl, rfl⟩

/-- A detector that has not yet seen any observation (cold start). -/
def coldTracker : OutlierDetector :=
  { threshold := 10, fast_mva := none, slow_mva := none,
    fast_decay := 1 / 2, slow_decay := 1 / 100 }

/-- A `FullyAdaptiveLion` state before its first step, with a cold
detector. -/
def faColdSt : FullyAdaptiveLionState :=
  { exp_avg := [0], moment_tracker := coldTracker, outlier_timestamp := [], step := 0,
    init_norm := none, wd_scaling := none }

/-- Witness for C5: on a cold-start state both configured `beta2` values
`99/100` and `1/2` give an unflagged observation, and the resulting parameter
and momentum are identical. -/
theorem fullyAdaptiveLion_adjusted_hyperparameters_witness :
    (FullyAdaptiveLion.stepParam 20 (1/2) [3] [4] 1 1 (9/10) (99/100) faColdSt).1 =
      (FullyAdaptiveLion.stepParam 20 (1/2) [3] [4] 1 1 (9/10) (1/2) faColdSt).1 ∧
    (FullyAdaptiveLion.stepParam 20 (1/2) [3] [4] 1 1 (9/10) (99/100)
        faColdSt).2.exp_avg =
      (FullyAdaptiveLion.stepParam 20 (1/2) [3] [4] 1 1 (9/10) (1/2)
        faColdSt).2.exp_avg :=
  (fullyAdaptiveLion_adjusted_hyperparameters 20 (1/2) [3] [4] 1 1 (9/10) (99/100)
    faColdSt).2 (1/2) rfl

/-- C7: a `FullyAdaptiveLion` step feeds `lionw` the weight decay
`adapted_lr * wd_scaling`, where `wd_scaling` is the factor stored at the
end of the previous step (absent on the very first step, where `.get(p, 0.0)`
makes the weight decay 0); after the update it stores the next factor
`(‖p_t‖ - ‖p_0‖) / ‖p_0‖` from the post-update parameter norm and the
initial norm captured before the first update. -/
theorem fullyAdaptiveLion_derived_weight_decay (timeout : ℕ)
    (param_adjustment : ℝ) (p grad : List ℝ) (lr initial_lr beta1 beta2 : ℝ)
    (st : FullyAdaptiveLionState) :
    let flag := (st.moment_tracker.insert_observation
      (Real.sqrt ((l2Norm (lerpList st.exp_avg grad (1 - beta2))) ^ 2))).1
    let n := (nextWindow st.outlier_timestamp flag st.step timeout).length
    let lr' := FullyAdaptiveLion.adjust_param lr param_adjustment n
    let beta1' := FullyAdaptiveLion.adjust_param beta1 param_adjustment n
    let beta2' := FullyAdaptiveLion.adjust_param beta1' param_adjustment n
    let p0 := st.init_norm.getD (l2Norm p)
    ((FullyAdaptiveLion.stepParam timeout param_adjustment p grad lr initial_lr
        beta1 beta2 st).1 =
      (lionw p grad st.exp_avg lr' initial_lr (lr' * st.wd_scaling.getD 0)
        beta1' beta2').1 ∧
     (FullyAdaptiveLion.stepParam timeout param_adjustment p grad lr initial_lr
        beta1 beta2 st).2.exp_avg =
      (lionw p grad st.exp_avg lr' initial_lr (lr' * st.wd_scaling.getD 0)
        beta1' beta2').2) ∧
    (∀ c : ℝ, st.wd_scaling = none → c * st.wd_scaling.getD 0 = 0) ∧
    (FullyAdaptiveLion.stepParam timeout param_adjustment p grad lr initial_lr
        beta1 beta2 st).2.wd_scaling =
      some ((l2Norm (FullyAdaptiveLion.stepParam timeout param_adjustment p grad lr
        initial_lr beta1 beta2 st).1 - p0) / p0) ∧
    (FullyAdaptiveLion.stepParam timeout param_adjustment p grad lr initial_lr
        beta1 beta2 st).2.init_norm = some p0 := by
  intro flag n lr' beta1' beta2' p0
  refine ⟨⟨rfl, rfl⟩, ?_, ?_, ?_⟩
  · intro c h
    rw [h]
    simp
  · cases hin : st.init_norm with
    | none => simp [FullyAdaptiveLion.stepParam, hin, sqrt_sq_l2Norm, p0]
    | some v => simp [FullyAdaptiveLion.stepParam, hin, sqrt_sq_l2Norm, p0]
  · cases hin : st.init_norm with
    | none => simp [FullyAdaptiveLion.stepParam, hin, sqrt_sq_l2Norm, p0]
    | some v => simp [FullyAdaptiveLion.stepParam, hin, sqrt_sq_l2Norm, p0]

/-- Witness for C7: a first-step state has no stored scaling, so the weight
decay contribution is 0, and the step stores the captured initial norm. -/
theorem fullyAdaptiveLion_derived_weight_decay_witness :
    (1:ℝ) * faColdSt.wd_scaling.getD 0 = 0 ∧
    (FullyAdaptiveLion.stepParam 20 (1/2) [3] [4] 1 1 (9/10) (99/100)
        faColdSt).2.init_norm = some (faColdSt.init_norm.getD (l2Norm [3])) := by
  have h := fullyAdaptiveLion_derived_weight_decay 20 (1/2) [3] [4] 1 1 (9/10)
    (99/100) faColdSt
  exact ⟨h.2.1 1 rfl, h.2.2.2⟩

/-- Metric keys, the hierarchical string paths of the source's metric maps:
`l2_norm/<vec>/<layer>`, `cosine/<vecA>_<vecB>/<layer>`, the per-class
counter/state families that `dist_reduce_metrics` skips (`skipped_batches`,
`clipped_batches`, `betas`, `layerwise_lr`, `wd_scaling`), and all remaining
families. -/
inductive MetricKey where
  | l2_norm (vec layer : String)
  | cosine (vecA vecB layer : String)
  | counter (family layer : String)
  | other (nm layer : String)
  deriving DecidableEq

/-- Single-worker embedding of `dist.get_world_size()`. -/
def worldSize : ℕ := 1

/-- Dot product of two flattened tensors. -/
def dotList (a b : List ℝ) : ℝ :=
  (List.zipWith (fun x y => x * y) a b).sum

/-- `torch.nn.functional.cosine_similarity(a, b, dim=0)` with its default
`eps = 1e-8` guard on the denominator. -/
def cosineSim (a b : List ℝ) : ℝ :=
  dotList a b / max (l2Norm a * l2Norm b) (1 / 100000000)

/-- The `SkipLion.pre_reduce_metrics` pass, embedded pointwise on total
valuations of the key space.  The source sorts `l2_norm` keys first and
squares them in place; a `cosine` key then reads the already-squared sibling
norms `l2_norm/<A>/<layer>` and `l2_norm/<B>/<layer>` and multiplies by
their square roots.  In the pointwise embedding the already-squared sibling
read is `(M sibling) ^ 2`. -/
def SkipLion.pre_reduce_metrics (M : MetricKey → ℝ) : MetricKey → ℝ := fun k =>
  match k with
  | .l2_norm v l => (M (.l2_norm v l)) ^ 2
  | .cosine a b l =>
      M (.cosine a b l) * Real.sqrt ((M (.l2_norm a l)) ^ 2) *
        Real.sqrt ((M (.l2_norm b l)) ^ 2)
  | k => M k

/-- The `SkipLion.dist_reduce_metrics` pass at world size 1 (the sum
all-reduce over one rank is the identity and is skipped by the source's
`> 1` guard): `l2_norm` values are square-rooted; `cosine` values are
divided by the product of the two already-reduced sibling norms (in the
pointwise embedding, `sqrt` of the incoming sibling values); the
`skipped_batches` family is skipped; everything else is averaged over the
world size. -/
def SkipLion.dist_reduce_metrics (M : MetricKey → ℝ) : MetricKey → ℝ := fun k =>
  match k with
  | .l2_norm v l => Real.sqrt (M (.l2_norm v l))
  | .cosine a b l =>
      M (.cosine a b l) /
        (Real.sqrt (M (.l2_norm a l)) * Real.sqrt (M (.l2_norm b l)))
  | .counter f l =>
      if f = "skipped_batches" then M (.counter f l)
      else M (.counter f l) / (worldSize : ℝ)
  | .other nm l => M (.other nm l) / (worldSize : ℝ)

/-- C3: at world size 1, `dist_reduce_metrics ∘ pre_reduce_metrics` is the
identity on every `l2_norm`-family value (squared, then square-rooted back,
for non-negative values) and on every `cosine`-family value whose two
sibling norms are non-negative and nonzero (the pre-scale by the two
per-worker norms is exactly undone by the divide by the two reduced
norms). -/
theorem metrics_reduce_roundtrip (M : MetricKey → ℝ) (v a b l : String) :
    (0 ≤ M (.l2_norm v l) →
      SkipLion.dist_reduce_metrics (SkipLion.pre_reduce_metrics M)
        (.l2_norm v l) = M (.l2_norm v l)) ∧
    (0 ≤ M (.l2_norm a l) → 0 ≤ M (.l2_norm b l) →
     M (.l2_norm a l) ≠ 0 → M (.l2_norm b l) ≠ 0 →
      SkipLion.dist_reduce_metrics (SkipLion.pre_reduce_metrics M)
        (.cosine a b l) = M (.cosine a b l)) := by
  constructor
  · intro h
    simp only [SkipLion.dist_reduce_metrics, SkipLion.pre_reduce_metrics]
    exact Real.sqrt_sq h
  · intro ha hb hna hnb
    simp only [SkipLion.dist_reduce_metrics, SkipLion.pre_reduce_metrics]
    rw [Real.sqrt_sq ha, Real.sqrt_sq hb, mul_assoc, mul_div_assoc,
      div_self (mul_ne_zero hna hnb), mul_one]

/-- The all-ones metric valuation. -/
def onesMetrics : MetricKey → ℝ := fun _ => 1

/-- Witness for C3: the round trip fixes the all-ones valuation on an
`l2_norm` key and a `cosine` key. -/
theorem metrics_reduce_roundtrip_witness :
    SkipLion.dist_reduce_metrics (SkipLion.pre_reduce_metrics onesMetrics)
      (.l2_norm "param" "layer0") = 1 ∧
    SkipLion.dist_reduce_metrics (SkipLion.pre_reduce_metrics onesMetrics)
      (.cosine "update" "grad" "layer0") = 1 := by
  have h := metrics_reduce_roundtrip onesMetrics "param" "update" "grad" "layer0"
  exact ⟨h.1 (by norm_num [onesMetrics]),
    h.2 (by norm_num [onesMetrics]) (by norm_num [onesMetrics])
      (by norm_num [onesMetrics]) (by norm_num [onesMetrics])⟩

/-- Functional update of a metric valuation at one key
(`optimizer_metrics[key] = value`). -/
def updMetric (M : MetricKey → ℝ) (k : MetricKey) (x : ℝ) : MetricKey → ℝ :=
  fun q => if q = k then x else M q

/-- `SkipLion.report_per_parameter_metrics(param, name, optimizer_metrics)`
for a parameter with existing state: the step tensor is recomputed on a
`clone()` of `exp_avg` (`.lerp_(grad, 1-beta1).sign_().mul_(lr)` then
`.add_(param, alpha=-weight_decay * decay_factor)`), the six
`metric_functions` entries plus the `skipped_batches/<name>` entry are
written into the map, and the (unchanged) state and the map are returned. -/
def SkipLion.report_per_parameter_metrics (p grad : List ℝ)
    (lr weight_decay initial_lr beta1 : ℝ) (name : String)
    (st : SkipLionState) (optimizer_metrics : MetricKey → ℝ) :
    SkipLionState × (MetricKey → ℝ) :=
  let step_tensor0 := ((lerpList st.exp_avg grad (1 - beta1)).map signR).map
    (fun x => x * lr)
  let decay_factor := if initial_lr ≠ 0 then lr / initial_lr else 1
  let step_tensor := List.zipWith
    (fun s x => s + (-(weight_decay * decay_factor)) * x) step_tensor0 p
  let m1 := updMetric optimizer_metrics (.l2_norm "moment" name) (l2Norm st.exp_avg)
  let m2 := updMetric m1 (.l2_norm "param" name) (l2Norm p)
  let m3 := updMetric m2 (.l2_norm "update" name) (l2Norm step_tensor)
  let m4 := updMetric m3 (.l2_norm "grad" name) (l2Norm grad)
  let m5 := updMetric m4 (.cosine "update" "grad" name) (cosineSim grad step_tensor)
  let m6 := updMetric m5 (.cosine "moment" "grad" name) (cosineSim grad st.exp_avg)
  let m7 := updMetric m6 (.counter "skipped_batches" name) st.skipped_batches
  (st, m7)

/-- C10: `report_per_parameter_metrics` leaves the optimizer state (momentum
and counter) untouched — the step tensor is recomputed on a clone — and its
only effect is writing the seven metric entries: every other key keeps its
previous value, and the written entries hold the recomputed values. -/
theorem report_metrics_frame (p grad : List ℝ)
    (lr weight_decay initial_lr beta1 : ℝ) (name : String)
    (st : SkipLionState) (M : MetricKey → ℝ) :
    let step_tensor := List.zipWith
      (fun s x => s + (-(weight_decay *
        (if initial_lr ≠ 0 then lr / initial_lr else 1))) * x)
      (((lerpList st.exp_avg grad (1 - beta1)).map signR).map (fun x => x * lr)) p
    let r := SkipLion.report_per_parameter_metrics p grad lr weight_decay
      initial_lr beta1 name st M
    r.1 = st ∧
    (∀ k : MetricKey,
      k ∉ [MetricKey.l2_norm "moment" name, MetricKey.l2_norm "param" name,
        MetricKey.l2_norm "update" name, MetricKey.l2_norm "grad" name,
        MetricKey.cosine "update" "grad" name, MetricKey.cosine "moment" "grad" name,
        MetricKey.counter "skipped_batches" name] →
      r.2 k = M k) ∧
    r.2 (.counter "skipped_batches" name) = st.skipped_batches ∧
    r.2 (.l2_norm "moment" name) = l2Norm st.exp_avg ∧
    r.2 (.l2_norm "param" name) = l2Norm p ∧
    r.2 (.l2_norm "update" name) = l2Norm step_tensor ∧
    r.2 (.l2_norm "grad" name) = l2Norm grad ∧
    r.2 (.cosine "update" "grad" name) = cosineSim grad step_tensor ∧
    r.2 (.cosine "moment" "grad" name) = cosineSim grad st.exp_avg := by
  intro step_tensor r
  refine ⟨rfl, ?_, ?_, ?_, ?_, ?_, ?_, ?_, ?_⟩
  · intro k hk
    simp only [List.mem_cons, List.not_mem_nil, or_false, not_or] at hk
    obtain ⟨h1, h2, h3, h4, h5, h6, h7⟩ := hk
    simp only [r, SkipLion.report_per_parameter_metrics, updMetric,
      if_neg h1, if_neg h2, if_neg h3, if_neg h4, if_neg h5, if_neg h6, if_neg h7]
  · simp [r, SkipLion.report_per_parameter_metrics, updMetric]
  · simp [r, SkipLion.report_per_parameter_metrics, updMetric]
  · simp [r, SkipLion.report_per_parameter_metrics, updMetric]
  · simp [r, SkipLion.report_per_parameter_metrics, updMetric, step_tensor]
  · simp [r, SkipLion.report_per_parameter_metrics, updMetric]
  · simp [r, SkipLion.report_per_parameter_metrics, updMetric, step_tensor]
  · simp [r, SkipLion.report_per_parameter_metrics, updMetric]

/-- Witness for C10: reporting on a concrete state leaves the state intact
and does not disturb an unrelated key of the all-ones valuation. -/
theorem report_metrics_frame_witness :
    (SkipLion.report_per_parameter_metrics [1] [2] 1 0 1 (1/2) "w" skipSt0
      onesMetrics).1 = skipSt0 ∧
    (SkipLion.report_per_parameter_metrics [1] [2] 1 0 1 (1/2) "w" skipSt0
      onesMetrics).2 (.other "extra" "w") = onesMetrics (.other "extra" "w") := by
  have h := report_metrics_frame [1] [2] 1 0 1 (1/2) "w" skipSt0 onesMetrics
  exact ⟨h.1, h.2.1 (.other "extra" "w") (by simp)⟩

/-- The hyperparameter group produced by a successful construction of the
four weight-decay-accepting variants, with the `initial_lr` snapshot taken
from `lr` and the flag of the non-fatal high-weight-decay warning. -/
structure LionInitResult where
  lr : ℝ
  beta1 : ℝ
  beta2 : ℝ
  weight_decay : ℝ
  initial_lr : ℝ
  warned : Bool

/-- The constructor of `SkipLion`: `assert lr > 0.` and
`assert all(0. <= beta <= 1. for beta in betas)` fail the construction
(`none`); a `weight_decay >= 1e-3` only sets the warning flag; on success
`initial_lr` is snapshotted from `lr`. -/
def SkipLion.init (lr beta1 beta2 weight_decay : ℝ) : Option LionInitResult :=
  if 0 < lr ∧ (0 ≤ beta1 ∧ beta1 ≤ 1) ∧ (0 ≤ beta2 ∧ beta2 ≤ 1) then
    some { lr := lr, beta1 := beta1, beta2 := beta2, weight_decay := weight_decay,
           initial_lr := lr,
           warned := if (1/1000 : ℝ) ≤ weight_decay then true else false }
  else none

/-- The constructor of `AdaBetaLion` (identical validation and warning). -/
def AdaBetaLion.init (lr beta1 beta2 weight_decay : ℝ) : Option LionInitResult :=
  if 0 < lr ∧ (0 ≤ beta1 ∧ beta1 ≤ 1) ∧ (0 ≤ beta2 ∧ beta2 ≤ 1) then
    some { lr := lr, beta1 := beta1, beta2 := beta2, weight_decay := weight_decay,
           initial_lr := lr,
           warned := if (1/1000 : ℝ) ≤ weight_decay then true else false }
  else none

/-- The constructor of `AdaLRLion` (identical validation and warning). -/
def AdaLRLion.init (lr beta1 beta2 weight_decay : ℝ) : Option LionInitResult :=
  if 0 < lr ∧ (0 ≤ beta1 ∧ beta1 ≤ 1) ∧ (0 ≤ beta2 ∧ beta2 ≤ 1) then
    some { lr := lr, beta1 := beta1, beta2 := beta2, weight_decay := weight_decay,
           initial_lr := lr,
           warned := if (1/1000 : ℝ) ≤ weight_decay then true else false }
  else none

/-- The constructor of `ClipLion` (identical validation and warning). -/
def ClipLion.init (lr beta1 beta2 weight_decay : ℝ) : Option LionInitResult :=
  if 0 < lr ∧ (0 ≤ beta1 ∧ beta1 ≤ 1) ∧ (0 ≤ beta2 ∧ beta2 ≤ 1) then
    some { lr := lr, beta1 := beta1, beta2 := beta2, weight_decay := weight_decay,
           initial_lr := lr,
           warned := if (1/1000 : ℝ) ≤ weight_decay then true else false }
  else none

/-- The group produced by `FullyAdaptiveLion`'s constructor, which accepts
no `weight_decay` hyperparameter at all. -/
structure FullyAdaptiveInitResult where
  lr : ℝ
  beta1 : ℝ
  beta2 : ℝ
  initial_lr : ℝ

/-- The constructor of `FullyAdaptiveLion`: same `lr`/betas assertions, no
weight decay parameter and no warning. -/
def FullyAdaptiveLion.init (lr beta1 beta2 : ℝ) : Option FullyAdaptiveInitResult :=
  if 0 < lr ∧ (0 ≤ beta1 ∧ beta1 ≤ 1) ∧ (0 ≤ beta2 ∧ beta2 ≤ 1) then
    some { lr := lr, beta1 := beta1, beta2 := beta2, initial_lr := lr }
  else none

/-- C9: every variant constructor fails (producing no optimizer) when
`lr ≤ 0` or a beta lies outside `[0, 1]`; with valid `lr` and betas the
weight-decay-accepting variants succeed for any `weight_decay`, raising only
the non-fatal warning flag exactly when `weight_decay ≥ 1e-3`. -/
theorem constructor_validation (lr beta1 beta2 weight_decay : ℝ) :
    ((lr ≤ 0 ∨ beta1 < 0 ∨ 1 < beta1 ∨ beta2 < 0 ∨ 1 < beta2) →
      SkipLion.init lr beta1 beta2 weight_decay = none ∧
      AdaBetaLion.init lr beta1 beta2 weight_decay = none ∧
      AdaLRLion.init lr beta1 beta2 weight_decay = none ∧
      ClipLion.init lr beta1 beta2 weight_decay = none ∧
      FullyAdaptiveLion.init lr beta1 beta2 = none) ∧
    (0 < lr → 0 ≤ beta1 → beta1 ≤ 1 → 0 ≤ beta2 → beta2 ≤ 1 →
      SkipLion.init lr beta1 beta2 weight_decay =
        some { lr := lr, beta1 := beta1, beta2 := beta2,
               weight_decay := weight_decay, initial_lr := lr,
               warned := if (1/1000 : ℝ) ≤ weight_decay then true else false } ∧
      AdaBetaLion.init lr beta1 beta2 weight_decay =
        some { lr := lr, beta1 := beta1, beta2 := beta2,
               weight_decay := weight_decay, initial_lr := lr,
               warned := if (1/1000 : ℝ) ≤ weight_decay then true else false } ∧
      AdaLRLion.init lr beta1 beta2 weight_decay =
        some { lr := lr, beta1 := beta1, beta2 := beta2,
               weight_decay := weight_decay, initial_lr := lr,
               warned := if (1/1000 : ℝ) ≤ weight_decay then true else false } ∧
      ClipLion.init lr beta1 beta2 weight_decay =
        some { lr := lr, beta1 := beta1, beta2 := beta2,
               weight_decay := weight_decay, initial_lr := lr,
               warned := if (1/1000 : ℝ) ≤ weight_decay then true else false }) := by
  constructor
  · intro h
    have hc : ¬(0 < lr ∧ (0 ≤ beta1 ∧ beta1 ≤ 1) ∧ (0 ≤ beta2 ∧ beta2 ≤ 1)) := by
      rintro ⟨h1, ⟨h2, h3⟩, h4, h5⟩
      rcases h with h | h | h | h | h <;> linarith
    refine ⟨?_, ?_, ?_, ?_, ?_⟩ <;>
      simp only [SkipLion.init, AdaBetaLion.init, AdaLRLion.init, ClipLion.init,
        FullyAdaptiveLion.init, if_neg hc]
  · intro h1 h2 h3 h4 h5
    refine ⟨?_, ?_, ?_, ?_⟩ <;>
      simp only [SkipLion.init, AdaBetaLion.init, AdaLRLion.init, ClipLion.init,
        if_pos (And.intro h1 (And.intro (And.intro h2 h3) (And.intro h4 h5)))]

/-- Witness for C9: a negative learning rate fails construction; a valid
group with `weight_decay = 1` succeeds in every weight-decay-accepting
variant with the warning flag raised. -/
theorem constructor_validation_witness :
    SkipLion.init (-1) (9/10) (99/100) 0 = none ∧
    SkipLion.init 1 (9/10) (99/100) 1 =
      some { lr := 1, beta1 := 9/10, beta2 := 99/100, weight_decay := 1,
             initial_lr := 1,
             warned := if (1/1000 : ℝ) ≤ 1 then true else false } ∧
    AdaLRLion.init 1 (9/10) (99/100) 1 =
      some { lr := 1, beta1 := 9/10, beta2 := 99/100, weight_decay := 1,
             initial_lr := 1,
             warned := if (1/1000 : ℝ) ≤ 1 then true else false } ∧
    ClipLion.init 1 (9/10) (99/100) 1 =
      some { lr := 1, beta1 := 9/10, beta2 := 99/100, weight_decay := 1,
             initial_lr := 1,
             warned := if (1/1000 : ℝ) ≤ 1 then true else false } := by
  have ha := constructor_validation (-1) (9/10) (99/100) 0
  have hb := constructor_validation 1 (9/10) (99/100) 1
  have hs := hb.2 (by norm_num) (by norm_num) (by norm_num) (by norm_num) (by norm_num)
  exact ⟨(ha.1 (Or.inl (by norm_num))).1, hs.1, hs.2.2.1, hs.2.2.2⟩

end
